import Mathlib

/-!
Shallow embedding of the pairwise-chat client of the Daily-Learning frontend.

The definitions below are translated from the TypeScript source:
* `src/lib/chatApi.ts` — the `ChatMessage` / `Conversation` data shapes;
* `src/components/chat/Chat.tsx` — the open-conversation state and its
  handlers (`sendMessage`, `handleDeleteMessage`, `handleFileSelect`,
  `fetchConversations`, `shouldShowDateSeparator`, `MessageBubble`);
* `src/components/chat/ChatButton.tsx` — the unread-count poller;
* `src/components/admin/AdminChatDashboard.tsx` — the admin directory
  (`fetchData`, `getUnreadCount`).

React `useState` cells are gathered into explicit state records; each async
handler becomes a function of the state and of the outcome of the network
calls it awaits (`FetchOutcome` / `SendOutcome` / `DeleteOutcome`), returning
the state after the handler has fully settled.  The `createdAt` timestamp
string only ever reaches the separator logic through
`new Date(createdAt).toDateString()`; the field `createdAtDay` stands for
that local-calendar-day value, with string equality of the `toDateString`
results modelled as equality of `createdAtDay`.
-/

/-- The populated sender/receiver object of `ChatMessage` in `chatApi.ts`. -/
structure ChatUser where
  id : String
  name : String
  email : String
  isAdmin : Bool
deriving Repr, DecidableEq

/-- `messageType: 'text' | 'file' | 'image'` from `chatApi.ts`. -/
inductive MessageType where
  | text
  | file
  | image
deriving Repr, DecidableEq

/-- The `replyTo` sub-object of `ChatMessage` in `chatApi.ts`. -/
structure ReplyInfo where
  id : String
  message : String
  messageType : MessageType
  fileName : Option String
deriving Repr, DecidableEq

/-- `ChatMessage` from `chatApi.ts`.  `createdAtDay` abstracts
`new Date(createdAt).toDateString()` evaluated in the viewer's local time
zone (equal days iff equal values). -/
structure ChatMessage where
  id : String
  senderId : ChatUser
  receiverId : ChatUser
  message : String
  messageType : MessageType
  fileUrl : Option String := none
  fileName : Option String := none
  fileSize : Option Nat := none
  fileMimeType : Option String := none
  isRead : Bool := false
  replyTo : Option ReplyInfo := none
  createdAtDay : Nat := 0
  isDeleted : Bool := false
  isDeleting : Bool := false
deriving Repr, DecidableEq

/-- `Conversation` from `chatApi.ts`: one directory entry, keyed by the
counterpart (`participant`). -/
structure Conversation where
  participant : ChatUser
  lastMessage : ChatMessage
  unreadCount : Nat
deriving Repr, DecidableEq

/-- A browser `File` as far as `handleFileSelect` inspects it. -/
structure SelectedFile where
  name : String
  size : Nat
  mimeType : String
deriving Repr, DecidableEq

/-- Outcome of one awaited transport call: the parsed payload on success
(the `|| []` null-guards are folded into the payload), or a thrown error. -/
inductive FetchOutcome (α : Type) where
  | ok (value : α)
  | err
deriving Repr

/-- Outcome of `chatApi.sendMessage`: the server-confirmed message, or a
thrown error. -/
inductive SendOutcome where
  | success (sentMessage : ChatMessage)
  | failure
deriving Repr

/-- Outcome of `chatApi.deleteMessage`. -/
inductive DeleteOutcome where
  | success
  | failure
deriving Repr, DecidableEq

/-- The network requests a handler issues, matching the `chatApi` surface
used by `Chat.tsx`. -/
inductive ApiCall where
  | sendMessage (receiverId : String) (message : Option String)
      (file : Option SelectedFile) (replyTo : Option String)
  | getConversations
  | deleteMessage (messageId : String)
deriving Repr, DecidableEq

/-- The `useState` cells of the `Chat` component that the message-thread
handlers read or write (`Chat.tsx`).  `deleteConfirmMessageId` merges the
`deleteConfirmState` pair: `some id` stands for `{isOpen: true, messageId:
id}` and `none` for the closed modal. -/
structure ChatState where
  conversations : List Conversation
  messages : List ChatMessage
  newMessage : String
  selectedFile : Option SelectedFile
  replyTo : Option ChatMessage
  selectedUserId : Option String
  sending : Bool
  loading : Bool
  deleteConfirmMessageId : Option String
deriving Repr, DecidableEq

/-- `fetchConversations` in `Chat.tsx`: on success the conversation list is
replaced wholesale by the response; the catch block only logs and toasts.
`setLoading(true)` followed by the `finally` `setLoading(false)` nets to
`loading := false` once the handler has settled. -/
def fetchConversations (s : ChatState) (result : FetchOutcome (List Conversation)) :
    ChatState :=
  match result with
  | .ok data => { s with conversations := data, loading := false }
  | .err => { s with loading := false }

/-- Model of the JavaScript `String.prototype.trim`: the string with
leading and trailing whitespace characters dropped, defined structurally on
the character list so that concrete states evaluate inside the kernel. -/
def trimString (s : String) : String :=
  String.mk
    (((s.data.dropWhile Char.isWhitespace).reverse.dropWhile Char.isWhitespace).reverse)

/-- The early-return guard of `sendMessage` in `Chat.tsx`:
`if ((!newMessage.trim() && !selectedFile) || !selectedUserId) return;`
(an empty string is the only falsy value `trim` can produce). -/
def sendGuard (s : ChatState) : Bool :=
  (trimString s.newMessage != "" || s.selectedFile.isSome) && s.selectedUserId.isSome

/-- The `Chat` state observable while `chatApi.sendMessage` is still in
flight: past the guard, `sendMessage` has only run `setSending(true)` before
the `await` — in particular `messages` is untouched. -/
def sendMessageInFlight (s : ChatState) : ChatState :=
  if sendGuard s then { s with sending := true } else s

/-- `sendMessage` in `Chat.tsx` after the awaited calls settle.  On success
the server-confirmed message is appended at the tail, the draft and reply
target are cleared, and `fetchConversations()` is awaited (with its own
outcome `convResult`); on failure the catch block only logs and toasts.
The `finally` block clears `sending`. -/
def sendMessage (s : ChatState) (outcome : SendOutcome)
    (convResult : FetchOutcome (List Conversation)) : ChatState :=
  if sendGuard s then
    match outcome with
    | .success sentMessage =>
        let s1 := { s with sending := true }
        let s2 := { s1 with
          messages := s1.messages ++ [sentMessage]
          newMessage := ""
          selectedFile := none
          replyTo := none }
        let s3 := fetchConversations s2 convResult
        { s3 with sending := false }
    | .failure => { s with sending := false }
  else s

/-- The network calls `sendMessage` issues: nothing when the guard rejects;
otherwise the multipart send (`message` is `newMessage.trim() || undefined`,
`replyTo` is `replyTo?._id`), followed on success by the
`fetchConversations()` refresh. -/
def sendMessageCalls (s : ChatState) (outcome : SendOutcome) : List ApiCall :=
  if sendGuard s then
    match s.selectedUserId with
    | some receiverId =>
        let call := ApiCall.sendMessage receiverId
          (if trimString s.newMessage != "" then some (trimString s.newMessage) else none)
          s.selectedFile
          (s.replyTo.map (fun m => m.id))
        match outcome with
        | .success _ => [call, ApiCall.getConversations]
        | .failure => [call]
    | none => []
  else []

/-- `openDeleteConfirmation` in `Chat.tsx`. -/
def openDeleteConfirmation (s : ChatState) (messageId : String) : ChatState :=
  { s with deleteConfirmMessageId := some messageId }

/-- `handleDeleteMessage` in `Chat.tsx` after the awaited delete settles.
It closes the modal, optimistically filters the target out of `messages`,
and awaits `chatApi.deleteMessage`.  The catch block re-adds the message by
searching the `messages` value captured by the closure (the list as it was
when the handler was created, i.e. before the optimistic removal) and
appending it, with `isDeleting` forced to `false`, at the tail. -/
def handleDeleteMessage (s : ChatState) (outcome : DeleteOutcome) : ChatState :=
  match s.deleteConfirmMessageId with
  | none => s
  | some messageId =>
      let snapshot := s.messages
      let s1 := { s with deleteConfirmMessageId := none }
      let s2 := { s1 with messages := s1.messages.filter (fun msg => msg.id != messageId) }
      match outcome with
      | .success => s2
      | .failure =>
          match snapshot.find? (fun msg => msg.id == messageId) with
          | some deletedMessage =>
              { s2 with messages := s2.messages ++ [{ deletedMessage with isDeleting := false }] }
          | none => s2

/-- `handleFileSelect` in `Chat.tsx`: the handler touches no `chatApi`
endpoint; an oversized file (`size > 10 * 1024 * 1024`) is rejected with a
toast and the staged draft untouched, otherwise the file replaces the
draft.  Returned alongside the new draft is the (empty) list of network
calls the handler issues. -/
def handleFileSelect (selectedFile : Option SelectedFile)
    (eventFile : Option SelectedFile) : Option SelectedFile × List ApiCall :=
  match eventFile with
  | none => (selectedFile, [])
  | some file =>
      if file.size > 10 * 1024 * 1024 then (selectedFile, [])
      else (some file, [])

/-- `shouldShowDateSeparator` in `Chat.tsx`: `true` with no previous
message, otherwise the `toDateString` comparison of the two timestamps,
modelled on `createdAtDay`. -/
def shouldShowDateSeparator (currentMessage : ChatMessage)
    (previousMessage : Option ChatMessage) : Bool :=
  match previousMessage with
  | none => true
  | some previous => currentMessage.createdAtDay != previous.createdAtDay

/-- The per-index `showDateSeparator` props computed by the render pass
`messages.map((message, index) => ... shouldShowDateSeparator(message,
messages[index - 1]))` in `Chat.tsx`; `messages[-1]` is `undefined` in
JavaScript, hence `none` at index `0`. -/
def renderSeparatorFlags (messages : List ChatMessage) : List Bool :=
  (List.range messages.length).map fun index =>
    match messages[index]? with
    | some message =>
        shouldShowDateSeparator message
          (if index = 0 then none else messages[index - 1]?)
    | none => false

/-- The three render shapes of `MessageBubble` in `Chat.tsx`:
the `isDeleting` spinner placeholder, the `isDeleted` content-stripped
tombstone, and the full bubble. -/
inductive BubbleView where
  | deletingPlaceholder
  | deletedTombstone
  | full
deriving Repr, DecidableEq

/-- Which of the three early-return branches of `MessageBubble` renders a
given message. -/
def bubbleView (message : ChatMessage) : BubbleView :=
  if message.isDeleting then .deletingPlaceholder
  else if message.isDeleted then .deletedTombstone
  else .full

/-- The hover actions a `MessageBubble` can offer. -/
inductive MessageAction where
  | reply
  | edit
  | delete
deriving Repr, DecidableEq

/-- The action buttons rendered by `MessageBubble`: none on the two
early-return branches; otherwise Reply always, and Edit/Delete guarded by
`isOwn`. -/
def bubbleActions (message : ChatMessage) (isOwn : Bool) : List MessageAction :=
  match bubbleView message with
  | .deletingPlaceholder => []
  | .deletedTombstone => []
  | .full => [MessageAction.reply] ++ (if isOwn then [MessageAction.edit, MessageAction.delete] else [])

/-- The `isOwn` prop passed by the `Chat` render loop:
`message.senderId._id === currentUser._id`. -/
def isOwnMessage (currentUserId : String) (message : ChatMessage) : Bool :=
  message.senderId.id == currentUserId

/-- The actions offered for a message as `Chat` renders it. -/
def messageActions (currentUserId : String) (message : ChatMessage) :
    List MessageAction :=
  bubbleActions message (isOwnMessage currentUserId message)

/-- `fetchUnreadCount` in `ChatButton.tsx`: the new displayed badge value
after one poll, given the value displayed before it.  On success the
response is reduced to the plain sum of `unreadCount`; the catch block runs
`setUnreadCount(0)`. -/
def fetchUnreadCount (unreadCount : Nat)
    (result : FetchOutcome (List Conversation)) : Nat :=
  match result with
  | .ok conversations =>
      conversations.foldl (fun sum conv => sum + conv.unreadCount) 0
  | .err => 0

/-- A `listAllUsers` entry (`getAllUsers` payload in `chatApi.ts`). -/
structure AdminUser where
  id : String
  name : Option String
  email : String
  isAdmin : Bool
deriving Repr, DecidableEq

/-- The state cells of `AdminChatDashboard.tsx` that `fetchData` writes. -/
structure AdminDashState where
  conversations : List Conversation
  allUsers : List AdminUser
  loading : Bool
deriving Repr, DecidableEq

/-- `fetchData` in `AdminChatDashboard.tsx` after both awaited fetches
settle.  Before awaiting it already runs `setConversations([])` and
`setAllUsers([])`; on success both lists are replaced by the responses; the
catch block sets both back to `[]`.  `finally` clears `loading`. -/
def fetchData (s : AdminDashState)
    (result : FetchOutcome (List Conversation × List AdminUser)) : AdminDashState :=
  let s0 := { s with loading := true, conversations := [], allUsers := ([] : List AdminUser) }
  match result with
  | .ok payload =>
      { s0 with conversations := payload.1, allUsers := payload.2, loading := false }
  | .err => { s0 with conversations := [], allUsers := [], loading := false }

/-- The state of `AdminChatDashboard` while `fetchData` is still awaiting
the two fetches: both lists have already been cleared. -/
def fetchDataInFlight (s : AdminDashState) : AdminDashState :=
  { s with loading := true, conversations := [], allUsers := [] }

/-- `getUnreadCount` in `AdminChatDashboard.tsx`:
`conversations.reduce((sum, conv) => sum + conv.unreadCount, 0)`. -/
def getUnreadCount (conversations : List Conversation) : Nat :=
  conversations.foldl (fun sum conv => sum + conv.unreadCount) 0

/-- Modelled from the spec: deduplication of directory entries by
counterpart (`participant`) id, keeping the first occurrence of each
counterpart.  No function in the source deduplicates; this definition
exists only to compare the code's aggregate against the spec's words. -/
def dedupByParticipant (conversations : List Conversation) : List Conversation :=
  conversations.foldl
    (fun acc conv =>
      if acc.any (fun c => c.participant.id == conv.participant.id) then acc
      else acc ++ [conv]) []

/-- Modelled from the spec: the aggregate §4.3 prescribes, namely the sum of
`unreadCount` after deduplicating entries by counterpart id. -/
def aggregateUnreadSpec (conversations : List Conversation) : Nat :=
  getUnreadCount (dedupByParticipant conversations)

/-! ### Sample data used by concrete evaluations -/

/-- The privileged counterpart in the sample data. -/
def adminUser : ChatUser :=
  { id := "u-admin", name := "Admin", email := "admin@example.com", isAdmin := true }

/-- An ordinary actor in the sample data. -/
def studentUser : ChatUser :=
  { id := "u-student", name := "Student", email := "student@example.com", isAdmin := false }

/-- A plain text message with the given id, direction, body and local day. -/
def sampleMessage (id : String) (sender receiver : ChatUser) (body : String)
    (day : Nat) : ChatMessage :=
  { id := id, senderId := sender, receiverId := receiver, message := body,
    messageType := MessageType.text, createdAtDay := day }

/-- First sample message of the open thread. -/
def msgOne : ChatMessage := sampleMessage "m1" studentUser adminUser "first" 1

/-- Second sample message of the open thread. -/
def msgTwo : ChatMessage := sampleMessage "m2" adminUser studentUser "second" 1

/-- A `Chat` component state with every cell at its initial value. -/
def baseChatState : ChatState :=
  { conversations := [], messages := [], newMessage := "", selectedFile := none,
    replyTo := none, selectedUserId := none, sending := false, loading := true,
    deleteConfirmMessageId := none }

/-- A directory entry for the student counterpart with two unread messages. -/
def sampleConversation : Conversation :=
  { participant := studentUser, lastMessage := msgOne, unreadCount := 2 }

/-! ### C1 — failed unread poll -/

/-- C1 counterexample: with 5 as the last successfully fetched aggregate, a
failed background poll runs the catch block of `fetchUnreadCount` and the
displayed count becomes 0, not the retained 5 the claim requires. -/
theorem chatbutton_c1_counterexample :
    fetchUnreadCount 5 (FetchOutcome.err : FetchOutcome (List Conversation)) = 0 ∧
    fetchUnreadCount 5 (FetchOutcome.err : FetchOutcome (List Conversation)) ≠ 5 := by
  exact ⟨rfl, by decide⟩

/-- C1 (amended): a failed background poll resets the displayed aggregate
unread count to zero (never an error value), regardless of the previously
displayed value; a subsequent successful poll sets it to the sum of the
fetched per-conversation `unreadCount`s. -/
theorem chatbutton_c1_amended (previous : Nat) (conversations : List Conversation) :
    fetchUnreadCount previous FetchOutcome.err = 0 ∧
    fetchUnreadCount previous (FetchOutcome.ok conversations) =
      getUnreadCount conversations :=
  ⟨rfl, rfl⟩

/-! ### C6 — directory refresh failure -/

/-- An admin dashboard state holding one previously fetched conversation. -/
def adminStateOne : AdminDashState :=
  { conversations := [sampleConversation], allUsers := [], loading := false }

/-- C6 counterexample: the admin dashboard's `fetchData`, on a failed
refresh, leaves the conversation list empty rather than equal to the last
successfully fetched (non-empty) list. -/
theorem admin_c6_counterexample :
    (fetchData adminStateOne FetchOutcome.err).conversations = [] ∧
    adminStateOne.conversations ≠ [] := by
  exact ⟨rfl, by decide⟩

/-- C6 (amended): the `Chat` component's `fetchConversations` does preserve
the last fetched list on failure, but `AdminChatDashboard.fetchData` clears
the conversation list to empty on failure — and already clears it before the
fetch resolves; a successful refresh replaces it with the response. -/
theorem c6_amended (s : ChatState) (sa : AdminDashState)
    (cs : List Conversation) (us : List AdminUser) :
    (fetchConversations s FetchOutcome.err).conversations = s.conversations ∧
    (fetchData sa FetchOutcome.err).conversations = [] ∧
    (fetchDataInFlight sa).conversations = [] ∧
    (fetchData sa (FetchOutcome.ok (cs, us))).conversations = cs :=
  ⟨rfl, rfl, rfl, rfl⟩

/-! ### C8 — attachment size limit -/

/-- An 11 MiB file. -/
def file11MiB : SelectedFile :=
  { name := "big.zip", size := 11 * 1024 * 1024, mimeType := "application/zip" }

/-- A 9 MiB file. -/
def file9MiB : SelectedFile :=
  { name := "ok.pdf", size := 9 * 1024 * 1024, mimeType := "application/pdf" }

/-- C8: `handleFileSelect` issues no network call and rejects a file
exceeding 10 * 1024 * 1024 bytes, leaving the staged draft unchanged;
otherwise it stores the file as the current draft, replacing any prior
draft.  Concretely, an 11 MiB file is rejected (prior draft kept) and a
9 MiB file is accepted and staged. -/
theorem chat_c8_file_size_limit :
    (∀ (draft : Option SelectedFile) (file : SelectedFile),
      handleFileSelect draft (some file) =
        (if file.size > 10 * 1024 * 1024 then draft else some file, [])) ∧
    handleFileSelect (some file9MiB) (some file11MiB) = (some file9MiB, []) ∧
    handleFileSelect (some file11MiB) (some file9MiB) = (some file9MiB, []) := by
  refine ⟨fun draft file => ?_, by decide, by decide⟩
  by_cases h : file.size > 10 * 1024 * 1024 <;> simp [handleFileSelect, h]

/-! ### C2 — optimistic send -/

/-- A `Chat` state with an open conversation and a non-empty composed body,
so that the `sendMessage` guard passes. -/
def composeState : ChatState :=
  { baseChatState with
    messages := [msgOne]
    newMessage := "hello"
    selectedUserId := some "u-admin" }

/-- The server-confirmed message a successful sample send returns. -/
def serverMessage : ChatMessage := sampleMessage "srv1" adminUser studentUser "hello" 1

/-- C2 counterexample: on a send with a non-empty body, no temporary message
is appended before the network call completes — while `chatApi.sendMessage`
is in flight the thread still has its prior length, not prior length + 1 as
the claim requires. -/
theorem chat_c2_counterexample :
    sendGuard composeState = true ∧
    ¬ (sendMessageInFlight composeState).messages.length =
        composeState.messages.length + 1 := by
  refine ⟨by decide, by decide⟩

/-- C2 (amended): `sendMessage` is not optimistic — the thread is unchanged
while the call is in flight (no temporary entry); on server success the
server-confirmed entry is appended at the tail; on server failure the thread
is left with message count, ordering, and content identical to its state
immediately before the call. -/
theorem chat_c2_amended (s : ChatState) (sentMessage : ChatMessage)
    (convResult : FetchOutcome (List Conversation)) :
    (sendMessageInFlight s).messages = s.messages ∧
    (sendGuard s = true →
      (sendMessage s (SendOutcome.success sentMessage) convResult).messages =
        s.messages ++ [sentMessage]) ∧
    (sendMessage s SendOutcome.failure convResult).messages = s.messages := by
  refine ⟨?_, ?_, ?_⟩
  · unfold sendMessageInFlight
    split <;> rfl
  · intro hg
    unfold sendMessage
    rw [if_pos hg]
    cases convResult <;> rfl
  · unfold sendMessage
    split <;> rfl

/-- C2 amended, witnessed at the sample compose state: a successful send
appends exactly the server-confirmed message at the tail. -/
theorem chat_c2_amended_witness :
    (sendMessage composeState (SendOutcome.success serverMessage)
        FetchOutcome.err).messages = composeState.messages ++ [serverMessage] :=
  (chat_c2_amended composeState serverMessage FetchOutcome.err).2.1 (by decide)

/-! ### C9 — reply target across send outcomes -/

/-- C9: the active reply target is cleared exactly when the send succeeds:
a successful send resets it to `none`, a failed send leaves it untouched,
and a guard-rejected send (empty draft) changes nothing at all. -/
theorem chat_c9_reply_target (s : ChatState) (sentMessage : ChatMessage)
    (convResult : FetchOutcome (List Conversation)) :
    (sendGuard s = true →
      (sendMessage s (SendOutcome.success sentMessage) convResult).replyTo = none) ∧
    (sendMessage s SendOutcome.failure convResult).replyTo = s.replyTo ∧
    (sendGuard s = false → sendMessage s SendOutcome.failure convResult = s ∧
      sendMessage s (SendOutcome.success sentMessage) convResult = s) := by
  refine ⟨?_, ?_, ?_⟩
  · intro hg
    unfold sendMessage
    rw [if_pos hg]
    cases convResult <;> rfl
  · unfold sendMessage
    split <;> rfl
  · intro hg
    constructor <;> · unfold sendMessage; rw [hg]; rfl

/-- C9, witnessed at the sample compose state with a reply target staged:
success clears the target, failure preserves it. -/
theorem chat_c9_reply_target_witness :
    (sendMessage { composeState with replyTo := some msgOne }
        (SendOutcome.success serverMessage) FetchOutcome.err).replyTo = none ∧
    (sendMessage { composeState with replyTo := some msgOne }
        SendOutcome.failure FetchOutcome.err).replyTo = some msgOne :=
  ⟨(chat_c9_reply_target { composeState with replyTo := some msgOne }
      serverMessage FetchOutcome.err).1 (by decide),
   (chat_c9_reply_target { composeState with replyTo := some msgOne }
      serverMessage FetchOutcome.err).2.1⟩

/-! ### C3 — failed delete rollback -/

/-- Clearing `isDeleting` on a message that was not marked deleting is the
identity. -/
theorem clearIsDeleting_eq (m : ChatMessage) (h : m.isDeleting = false) :
    { m with isDeleting := false } = m := by
  cases m
  simp_all

/-- Filtering a thread by "id differs from the target" removes exactly the
unique occurrence of the target. -/
theorem filter_ne_id_split (l1 l2 : List ChatMessage) (m : ChatMessage)
    (messageId : String) (hid : m.id = messageId)
    (h1 : ∀ x ∈ l1, x.id ≠ messageId) (h2 : ∀ x ∈ l2, x.id ≠ messageId) :
    (l1 ++ m :: l2).filter (fun msg => msg.id != messageId) = l1 ++ l2 := by
  rw [List.filter_append, List.filter_cons,
      List.filter_eq_self.mpr (fun a ha => by simpa [bne_iff_ne] using h1 a ha),
      List.filter_eq_self.mpr (fun a ha => by simpa [bne_iff_ne] using h2 a ha)]
  simp [hid]

/-- Searching a thread for the target id finds exactly the unique occurrence
of the target. -/
theorem find?_eq_id_split (l1 l2 : List ChatMessage) (m : ChatMessage)
    (messageId : String) (hid : m.id = messageId)
    (h1 : ∀ x ∈ l1, x.id ≠ messageId) :
    (l1 ++ m :: l2).find? (fun msg => msg.id == messageId) = some m := by
  rw [List.find?_append,
      List.find?_eq_none.mpr (fun x hx => by simpa [beq_iff_eq] using h1 x hx)]
  simp [List.find?_cons_of_pos, hid]

/-- A `Chat` state whose open thread holds two messages, with the delete of
the first one confirmed. -/
def deleteState : ChatState :=
  { baseChatState with
    messages := [msgOne, msgTwo]
    deleteConfirmMessageId := some "m1" }

/-- C3 counterexample: deleting the first of two messages and having the
network delete fail leaves the thread `[m2, m1]` — the target is re-added at
the tail, not restored at its prior position — so the thread after the
failed delete does not equal the thread before it. -/
theorem chat_c3_counterexample :
    (handleDeleteMessage deleteState DeleteOutcome.failure).messages ≠
      deleteState.messages := by
  decide

/-- C3 (amended): when the network delete of the (unique, not-deleting)
target fails, the target is restored with its prior content and
`isDeleting` cleared, but appended at the tail of the thread rather than at
its prior position; the restored thread is therefore a permutation of the
prior thread (same count and content), equal to it only when the target was
already last. -/
theorem chat_c3_amended (s : ChatState) (messageId : String) (m : ChatMessage)
    (l1 l2 : List ChatMessage)
    (hq : s.deleteConfirmMessageId = some messageId)
    (hs : s.messages = l1 ++ m :: l2)
    (hid : m.id = messageId)
    (hdel : m.isDeleting = false)
    (h1 : ∀ x ∈ l1, x.id ≠ messageId)
    (h2 : ∀ x ∈ l2, x.id ≠ messageId) :
    (handleDeleteMessage s DeleteOutcome.failure).messages = (l1 ++ l2) ++ [m] ∧
    ((handleDeleteMessage s DeleteOutcome.failure).messages).Perm s.messages := by
  have hmain :
      (handleDeleteMessage s DeleteOutcome.failure).messages = (l1 ++ l2) ++ [m] := by
    unfold handleDeleteMessage
    rw [hq]
    simp only [hs, filter_ne_id_split l1 l2 m messageId hid h1 h2,
      find?_eq_id_split l1 l2 m messageId hid h1, clearIsDeleting_eq m hdel]
  refine ⟨hmain, ?_⟩
  rw [hmain, hs, List.append_assoc]
  exact List.Perm.append_left l1 (List.perm_append_singleton m l2)

/-- C3 amended, witnessed on the two-message thread: the failed delete of
`m1` yields `[m2, m1]`, a permutation of the prior `[m1, m2]`. -/
theorem chat_c3_amended_witness :
    (handleDeleteMessage deleteState DeleteOutcome.failure).messages =
      (([] : List ChatMessage) ++ [msgTwo]) ++ [msgOne] ∧
    ((handleDeleteMessage deleteState DeleteOutcome.failure).messages).Perm
      deleteState.messages :=
  chat_c3_amended deleteState "m1" msgOne [] [msgTwo] rfl rfl rfl rfl
    (by decide) (by decide)

/-! ### C4 — deleted messages as tombstones -/

/-- A message already in the terminal deleted state. -/
def deletedMsg : ChatMessage :=
  { sampleMessage "m3" studentUser adminUser "gone" 1 with isDeleted := true }

/-- A `Chat` state whose thread contains a deleted message, with its delete
confirmed. -/
def c4State : ChatState :=
  { baseChatState with
    messages := [msgOne, deletedMsg]
    deleteConfirmMessageId := some "m3" }

/-- C4 counterexample: a message in the deleted state does not keep its slot
— the delete operation removes it from the thread sequence entirely. -/
theorem chat_c4_counterexample :
    deletedMsg.isDeleted = true ∧
    deletedMsg ∈ c4State.messages ∧
    deletedMsg ∉ (handleDeleteMessage c4State DeleteOutcome.success).messages := by
  decide

/-- C4 (amended): a successful delete removes the target entry from the
thread sequence entirely (it filters by id, deleted or not) rather than
keeping it as a tombstone; a message carrying the deleted flag does render
as the content-stripped tombstone while it is present. -/
theorem chat_c4_amended (s : ChatState) (messageId : String)
    (hq : s.deleteConfirmMessageId = some messageId) :
    (handleDeleteMessage s DeleteOutcome.success).messages =
      s.messages.filter (fun msg => msg.id != messageId) ∧
    (∀ m : ChatMessage, m.isDeleted = true → m.isDeleting = false →
      bubbleView m = BubbleView.deletedTombstone) := by
  constructor
  · unfold handleDeleteMessage
    rw [hq]
  · intro m h1 h2
    simp [bubbleView, h1, h2]

/-- C4 amended, witnessed on the thread holding the deleted sample message:
the successful delete leaves only the other message. -/
theorem chat_c4_amended_witness :
    (handleDeleteMessage c4State DeleteOutcome.success).messages =
      c4State.messages.filter (fun msg => msg.id != "m3") :=
  (chat_c4_amended c4State "m3" rfl).1

/-! ### C5 — aggregate unread and deduplication -/

/-- The dedup fold leaves a list with pairwise-distinct participant ids
untouched, for any accumulator disjoint from it. -/
theorem dedupFold_of_nodup (l : List Conversation) :
    ∀ acc : List Conversation,
      (∀ c ∈ l, acc.any (fun a => a.participant.id == c.participant.id) = false) →
      ((l.map fun c => c.participant.id).Nodup) →
      l.foldl
        (fun acc conv =>
          if acc.any (fun c => c.participant.id == conv.participant.id) then acc
          else acc ++ [conv]) acc = acc ++ l := by
  induction l with
  | nil => intro acc _ _; simp
  | cons c l ih =>
      intro acc hacc hnd
      rw [List.map_cons, List.nodup_cons] at hnd
      obtain ⟨hnotin, hndl⟩ := hnd
      have hc := hacc c (List.mem_cons_self c l)
      rw [List.foldl_cons, if_neg (by simp [hc])]
      have ih' := ih (acc ++ [c]) ?_ hndl
      · rw [ih', List.append_assoc]
        rfl
      · intro x hx
        have hx1 := hacc x (List.mem_cons_of_mem c hx)
        have hx2 : (c.participant.id == x.participant.id) = false := by
          rw [beq_eq_false_iff_ne]
          intro he
          exact hnotin (he ▸ List.mem_map_of_mem (fun c => c.participant.id) hx)
        simp [List.any_append, hx1, hx2]

/-- Two directory entries for the same counterpart, one unread each. -/
def dupConversations : List Conversation :=
  [ { participant := studentUser, lastMessage := msgOne, unreadCount := 1 },
    { participant := studentUser, lastMessage := msgTwo, unreadCount := 1 } ]

/-- Two directory entries for distinct counterparts. -/
def distinctConversations : List Conversation :=
  [ { participant := studentUser, lastMessage := msgOne, unreadCount := 1 },
    { participant := adminUser, lastMessage := msgTwo, unreadCount := 3 } ]

/-- C5 counterexample: with the same counterpart appearing in two entries of
one unread message each, the code's aggregate (`getUnreadCount`, a plain
sum) is 2 while the claim's deduplicated sum is 1 — the duplicated
counterpart is counted twice. -/
theorem admin_c5_counterexample :
    getUnreadCount dupConversations = 2 ∧
    aggregateUnreadSpec dupConversations = 1 ∧
    getUnreadCount dupConversations ≠ aggregateUnreadSpec dupConversations := by
  refine ⟨rfl, rfl, by decide⟩

/-- C5 (amended): both aggregates in the source — the `ChatButton` poll
reduction and the admin dashboard's `getUnreadCount` — are the plain sum of
`unreadCount` over all current entries with no deduplication; whenever the
counterpart ids are pairwise distinct, the plain sum agrees with the spec's
deduplicated sum. -/
theorem admin_c5_amended :
    (∀ (previous : Nat) (conversations : List Conversation),
      fetchUnreadCount previous (FetchOutcome.ok conversations) =
        getUnreadCount conversations) ∧
    (∀ conversations : List Conversation,
      ((conversations.map fun c => c.participant.id).Nodup) →
      getUnreadCount conversations = aggregateUnreadSpec conversations) := by
  refine ⟨fun previous conversations => rfl, fun conversations hnd => ?_⟩
  unfold aggregateUnreadSpec dedupByParticipant
  rw [dedupFold_of_nodup conversations [] (fun c _ => rfl) hnd]
  rfl

/-- C5 amended, witnessed on two entries with distinct counterparts: the
plain sum and the deduplicated sum agree (both 4). -/
theorem admin_c5_amended_witness :
    getUnreadCount distinctConversations = aggregateUnreadSpec distinctConversations :=
  admin_c5_amended.2 distinctConversations (by decide)

/-! ### C7 — date separators -/

/-- Six sample messages whose local calendar days run D1, D1, D2, D2, D2, D1. -/
def c7Messages : List ChatMessage :=
  [ sampleMessage "d1" adminUser studentUser "a" 1,
    sampleMessage "d2" adminUser studentUser "b" 1,
    sampleMessage "d3" adminUser studentUser "c" 2,
    sampleMessage "d4" adminUser studentUser "d" 2,
    sampleMessage "d5" adminUser studentUser "e" 2,
    sampleMessage "d6" adminUser studentUser "f" 1 ]

/-- C7: in the rendered sequence, position `i` gets a date separator exactly
when it is in range and either is the first rendered message or its local
calendar day differs from the immediately preceding rendered message's day;
on days D1, D1, D2, D2, D2, D1 the separators fall exactly before indices
0, 2 and 5. -/
theorem chat_c7_date_separators :
    (∀ (messages : List ChatMessage) (i : Nat),
      ((renderSeparatorFlags messages)[i]? = some true ↔
        (i < messages.length ∧ (i = 0 ∨
          messages[i]?.map ChatMessage.createdAtDay ≠
            messages[i - 1]?.map ChatMessage.createdAtDay)))) ∧
    renderSeparatorFlags c7Messages = [true, false, true, false, false, true] := by
  refine ⟨fun messages i => ?_, by decide⟩
  unfold renderSeparatorFlags
  rw [List.getElem?_map]
  by_cases h : i < messages.length
  · rw [List.getElem?_range h, Option.map_some']
    rw [List.getElem?_eq_getElem h]
    by_cases h0 : i = 0
    · subst h0
      simp [shouldShowDateSeparator, h]
    · have h1 : i - 1 < messages.length := lt_of_le_of_lt (Nat.sub_le i 1) h
      rw [List.getElem?_eq_getElem h1]
      simp [shouldShowDateSeparator, h0, h, bne_iff_ne]
  · rw [List.getElem?_eq_none (by simpa using Nat.le_of_not_lt h)]
    simp [h]

/-! ### C10 — actions offered per message ownership -/

/-- C10: Edit and Delete are offered only on the current actor's own
messages (the sender id equals the current actor's id whenever either
action is present), and a counterpart's message offers at most the Reply
action. -/
theorem chat_c10_own_actions (currentUserId : String) (message : ChatMessage) :
    (MessageAction.delete ∈ messageActions currentUserId message →
      message.senderId.id = currentUserId) ∧
    (MessageAction.edit ∈ messageActions currentUserId message →
      message.senderId.id = currentUserId) ∧
    (message.senderId.id ≠ currentUserId →
      ∀ a ∈ messageActions currentUserId message, a = MessageAction.reply) := by
  unfold messageActions bubbleActions bubbleView isOwnMessage
  by_cases hdg : message.isDeleting <;>
    by_cases hdd : message.isDeleted <;>
      by_cases hown : message.senderId.id = currentUserId <;>
        simp [hdg, hdd, hown]

/-- A message sent by the admin actor in the sample data. -/
def ownMessage : ChatMessage := sampleMessage "own1" adminUser studentUser "mine" 2

/-- C10, witnessed on a concrete own message that does offer Delete: the
theorem yields that its sender is the current actor. -/
theorem chat_c10_own_actions_witness :
    ownMessage.senderId.id = "u-admin" :=
  (chat_c10_own_actions "u-admin" ownMessage).1 (by decide)
